import Mathlib

/-!
Verification of the CRUD / schema-introspection layer and the analytics
query catalog of the Cricbuzz_live_info repository.

The definitions below are a shallow embedding of
`src/utils/db_connection.py` and of the query catalog in
`src/pages/sql_queries.py`.  Engine calls (connections opened, SQL
statements issued) are made observable through an explicit `Trace`
value; the relational engine itself is passed in as a function
argument, so that theorems can quantify over arbitrary engine
behaviour.
-/

/-- Trace of observable engine interactions performed by one operation:
how many connections were opened and which SQL statement texts were
issued to the engine. -/
structure Trace where
  connections : Nat
  statements : List String
deriving Repr, DecidableEq

/-- Embedding of the Python string method `strip`: removes whitespace
from both ends of a string. -/
def pyStrip (s : String) : String :=
  String.mk (((s.data.dropWhile Char.isWhitespace).reverse.dropWhile Char.isWhitespace).reverse)

/-- Embedding of the Python string method `lower`. -/
def pyLower (s : String) : String :=
  String.mk (s.data.map Char.toLower)

/-- Embedding of the Python string method `startswith`. -/
def pyStartsWith (s pre : String) : Bool :=
  pre.data.isPrefixOf s.data

/-- Embedding of `run_select` (db_connection.py lines 122-135).  The
Python code raises `ValueError("Only SELECT queries are allowed here.")`
when `select_sql.strip().lower().startswith("select")` is false, before
`create_connection` is called; otherwise it opens one connection and
issues the statement to the engine (`pd.read_sql`). -/
def run_select {α : Type} (eng : String → α) (select_sql : String) :
    Trace × Except String α :=
  if !(pyStartsWith (pyLower (pyStrip select_sql)) "select") then
    (⟨0, []⟩, Except.error "Only SELECT queries are allowed here.")
  else
    (⟨1, [select_sql]⟩, Except.ok (eng select_sql))

/-- Embedding of `delete_rows` (db_connection.py lines 161-180).  The
engine argument maps an executed SQL text to the reported affected-row
count (`cur.rowcount`). -/
def delete_rows (eng : String → Nat) (table where_clause : String) :
    Trace × Except String (Nat × String) :=
  let w := pyStrip where_clause
  if w = "" then
    (⟨0, []⟩, Except.error "Refusing to delete without a WHERE clause.")
  else
    let sql := "DELETE FROM `" ++ table ++ "` WHERE " ++ w ++ ";"
    (⟨1, [sql]⟩, Except.ok (eng sql, sql))

/-- Embedding of `execute_update` (db_connection.py lines 183-206). -/
def execute_update (eng : String → Nat) (table set_clause where_clause : String) :
    Trace × Except String (Nat × String) :=
  let set_part := pyStrip set_clause
  let where_part := pyStrip where_clause
  if set_part = "" then
    (⟨0, []⟩, Except.error "SET clause cannot be empty.")
  else if where_part = "" then
    (⟨0, []⟩, Except.error "Refusing to update without a WHERE clause.")
  else
    let sql := "UPDATE `" ++ table ++ "` SET " ++ set_part ++ " WHERE " ++ where_part ++ ";"
    (⟨1, [sql]⟩, Except.ok (eng sql, sql))

/-- Embedding of `insert_row` (db_connection.py lines 138-158).  The
engine receives the parameterized SQL text and the list of bound
values separately, exactly as `cur.execute(sql, values)` does; the
values never appear in the SQL text itself. -/
def insert_row (eng : String → List String → Nat) (table : String)
    (data : List (String × String)) : Trace × Except String (Nat × String) :=
  let cols := data.map (fun kv => "`" ++ kv.1 ++ "`")
  let placeholders := String.intercalate ", " (List.replicate cols.length "%s")
  let sql := "INSERT INTO `" ++ table ++ "` (" ++ String.intercalate ", " cols ++
      ") VALUES (" ++ placeholders ++ ");"
  let values := data.map (fun kv => kv.2)
  (⟨1, [sql]⟩, Except.ok (eng sql values, sql))

/-- Constant engine used to instantiate witness theorems. -/
def zeroEngine : String → Nat := fun _ => 0

/-- Constant two-argument engine used to instantiate witness theorems. -/
def oneRowEngine : String → List String → Nat := fun _ _ => 1

/-- C1: an input whose trimmed, lower-cased text does not start with
`select` makes `run_select` fail with a validation error before any
engine call (no connection opened, no statement issued), and an input
whose trimmed, lower-cased text does start with `select` passes the
check and is handed to the engine as-is. -/
theorem run_select_prefix_check {α : Type} (eng : String → α) (s : String) :
    (pyStartsWith (pyLower (pyStrip s)) "select" = false →
      run_select eng s = (⟨0, []⟩, Except.error "Only SELECT queries are allowed here."))
    ∧ (pyStartsWith (pyLower (pyStrip s)) "select" = true →
      run_select eng s = (⟨1, [s]⟩, Except.ok (eng s))) := by
  constructor
  · intro h
    simp [run_select, h]
  · intro h
    simp [run_select, h]

/-- Witness for `run_select_prefix_check`: the statement `DROP TABLE
players;` is rejected with no engine interaction, while `select * from
players;` is accepted. -/
theorem run_select_prefix_check_witness :
    run_select (fun _ => (0 : Nat)) "DROP TABLE players;"
      = (⟨0, []⟩, Except.error "Only SELECT queries are allowed here.")
    ∧ run_select (fun _ => (0 : Nat)) "select * from players;"
      = (⟨1, ["select * from players;"]⟩, Except.ok 0) :=
  ⟨(run_select_prefix_check (fun _ => (0 : Nat)) "DROP TABLE players;").1 (by decide),
   (run_select_prefix_check (fun _ => (0 : Nat)) "select * from players;").2 (by decide)⟩

/-- C2: `delete_rows` with a whitespace-only WHERE clause, and
`execute_update` with a whitespace-only SET or WHERE clause, fail with
a validation error while opening zero connections and issuing zero
statements to the engine. -/
theorem mutation_requires_clauses (eng : String → Nat) (table : String) :
    (∀ wc : String, pyStrip wc = "" →
      delete_rows eng table wc
        = (⟨0, []⟩, Except.error "Refusing to delete without a WHERE clause."))
    ∧ (∀ sc wc : String, pyStrip sc = "" ∨ pyStrip wc = "" →
      (execute_update eng table sc wc).1 = ⟨0, []⟩
        ∧ ∃ m, (execute_update eng table sc wc).2 = Except.error m) := by
  constructor
  · intro wc h
    simp [delete_rows, h]
  · intro sc wc h
    rcases h with h | h
    · simp [execute_update, h]
    · by_cases hs : pyStrip sc = ""
      · simp [execute_update, hs]
      · simp [execute_update, hs, h]

/-- Witness for `mutation_requires_clauses`: a whitespace-only WHERE
clause aborts the delete, and an empty SET clause aborts the update,
each with an empty engine trace. -/
theorem mutation_requires_clauses_witness :
    delete_rows zeroEngine "players" "   "
      = (⟨0, []⟩, Except.error "Refusing to delete without a WHERE clause.")
    ∧ ((execute_update zeroEngine "players" "" "id = 1").1 = ⟨0, []⟩
        ∧ ∃ m, (execute_update zeroEngine "players" "" "id = 1").2 = Except.error m) :=
  ⟨(mutation_requires_clauses zeroEngine "players").1 "   " (by decide),
   (mutation_requires_clauses zeroEngine "players").2 "" "id = 1" (Or.inl (by decide))⟩

/-- Models the relational engine executing `SELECT * FROM t LIMIT n`:
the engine returns at most `n` rows of the table. -/
def execSelectLimit {α : Type} (rows : List α) (n : Nat) : List α :=
  List.take n rows

/-- Embedding of `fetch_table` (db_connection.py lines 106-119).
`tablesOf` gives the rows the engine holds for each table name; the
Python `int(limit)` coercion is the identity on an integer limit, whose
bounds 1..10000 come from the calling UI (`crud_operations.py` line 60). -/
def fetch_table {α : Type} (tablesOf : String → List α) (table : String)
    (limit : Int) : List α × String :=
  let sql := "SELECT * FROM `" ++ table ++ "` LIMIT " ++ toString limit ++ ";"
  (execSelectLimit (tablesOf table) limit.toNat, sql)

/-- SQL text built by `insert_row` for a given table and column list:
every column name backtick-quoted and one `%s` placeholder per column,
in map order. -/
def insertSqlText (table : String) (cols : List String) : String :=
  "INSERT INTO `" ++ table ++ "` (" ++
    String.intercalate ", " (cols.map (fun c => "`" ++ c ++ "`")) ++ ") VALUES (" ++
    String.intercalate ", " (List.replicate cols.length "%s") ++ ");"

/-- C4: `fetch_table` returns exactly the SQL text
`SELECT * FROM <backtick-quoted table> LIMIT <limit>;` and at most
`limit` rows, for every limit in the UI-enforced range 1..10000. -/
theorem fetch_table_sql_and_limit {α : Type} (tablesOf : String → List α)
    (table : String) (limit : Int) (h1 : 1 ≤ limit) (h2 : limit ≤ 10000) :
    (fetch_table tablesOf table limit).2
        = "SELECT * FROM `" ++ table ++ "` LIMIT " ++ toString limit ++ ";"
    ∧ (((fetch_table tablesOf table limit).1.length : Int) ≤ limit) := by
  refine ⟨rfl, ?_⟩
  have hlen : (fetch_table tablesOf table limit).1.length ≤ limit.toNat := by
    simp [fetch_table, execSelectLimit]
  calc ((fetch_table tablesOf table limit).1.length : Int)
      ≤ (limit.toNat : Int) := by exact_mod_cast hlen
    _ = limit := Int.toNat_of_nonneg (le_trans (by norm_num) h1)

/-- Concrete database used to instantiate witness theorems. -/
def wPlayersDb : String → List Nat := fun _ => [1, 2, 3, 4, 5, 6, 7]

/-- Witness for `fetch_table_sql_and_limit`: table `players` with limit
5 produces the exact text and at most 5 rows. -/
theorem fetch_table_sql_and_limit_witness :
    (fetch_table wPlayersDb "players" 5).2 = "SELECT * FROM `players` LIMIT 5;"
    ∧ (((fetch_table wPlayersDb "players" 5).1.length : Int) ≤ 5) := by
  have h := fetch_table_sql_and_limit wPlayersDb "players" 5 (by norm_num) (by norm_num)
  exact ⟨h.1.trans (by decide), h.2⟩

/-- C5: `insert_row` builds the parameterized statement
`INSERT INTO <table> (<cols>) VALUES (<placeholders>);` whose text
depends only on the column names (values are passed to the engine as a
separate bound-parameter list, never interpolated into the text), and
returns the engine-reported affected count together with that text. -/
theorem insert_row_parameterized (eng : String → List String → Nat)
    (table : String) (data : List (String × String)) :
    insert_row eng table data
        = (⟨1, [insertSqlText table (data.map Prod.fst)]⟩,
           Except.ok (eng (insertSqlText table (data.map Prod.fst)) (data.map Prod.snd),
             insertSqlText table (data.map Prod.fst)))
    ∧ (∀ data2 : List (String × String),
        data2.map Prod.fst = data.map Prod.fst →
        (insert_row eng table data2).1.statements
          = (insert_row eng table data).1.statements) := by
  have key : ∀ d : List (String × String),
      insert_row eng table d
        = (⟨1, [insertSqlText table (d.map Prod.fst)]⟩,
           Except.ok (eng (insertSqlText table (d.map Prod.fst)) (d.map Prod.snd),
             insertSqlText table (d.map Prod.fst))) := by
    intro d
    simp only [insert_row, insertSqlText, List.map_map, List.length_map]
    rfl
  refine ⟨key data, ?_⟩
  intro data2 h
  rw [key data2, key data, h]

/-- Witness for `insert_row_parameterized`: the two-column map with
values `Test Player` and `India` yields the exact parameterized text
with affected count 1 when the engine reports one row, and a map with
the same keys but different values yields the identical statement. -/
theorem insert_row_parameterized_witness :
    (insert_row oneRowEngine "table" [("name", "Test Player"), ("team", "India")]).2
      = Except.ok (1, "INSERT INTO `table` (`name`, `team`) VALUES (%s, %s);")
    ∧ (insert_row oneRowEngine "table" [("name", "X"), ("team", "Y")]).1.statements
      = (insert_row oneRowEngine "table"
          [("name", "Test Player"), ("team", "India")]).1.statements := by
  have h := insert_row_parameterized oneRowEngine "table"
    [("name", "Test Player"), ("team", "India")]
  refine ⟨?_, h.2 [("name", "X"), ("team", "Y")] (by decide)⟩
  rw [h.1]
  rfl

/-- C10: `insert_row` never raises a validation error for any
column-value map (the result is always `ok`), never filters any column
out of the generated statement (every key of the map appears, in
order), and with the empty map it builds the SQL text
`INSERT INTO <table> () VALUES ();`. -/
theorem insert_row_no_validation (eng : String → List String → Nat)
    (table : String) (data : List (String × String)) :
    (∃ v, (insert_row eng table data).2 = Except.ok v)
    ∧ (insert_row eng table data).1.statements
        = [insertSqlText table (data.map Prod.fst)]
    ∧ (insert_row eng table []).1.statements
        = ["INSERT INTO `" ++ table ++ "` () VALUES ();"]
    ∧ (insert_row eng table []).2
        = Except.ok (eng ("INSERT INTO `" ++ table ++ "` () VALUES ();") [],
            "INSERT INTO `" ++ table ++ "` () VALUES ();") := by
  have hnil : insertSqlText table [] = "INSERT INTO `" ++ table ++ "` () VALUES ();" := by
    apply String.ext
    simp [insertSqlText, String.data_append, String.intercalate]
  have key : ∀ d : List (String × String),
      insert_row eng table d
        = (⟨1, [insertSqlText table (d.map Prod.fst)]⟩,
           Except.ok (eng (insertSqlText table (d.map Prod.fst)) (d.map Prod.snd),
             insertSqlText table (d.map Prod.fst))) := by
    intro d
    simp only [insert_row, insertSqlText, List.map_map, List.length_map]
    rfl
  refine ⟨⟨_, (congrArg Prod.snd (key data))⟩, ?_, ?_, ?_⟩
  · rw [key data]
  · rw [key []]
    simp [hnil]
  · rw [key []]
    simp [hnil]

/-- Column metadata row as returned by the INFORMATION_SCHEMA query in
`get_mysql_schema` (db_connection.py lines 50-68): COLUMN_NAME,
DATA_TYPE, IS_NULLABLE, COLUMN_KEY, COLUMN_DEFAULT, EXTRA. -/
structure ColumnInfo where
  name : String
  type : String
  nullable : String
  key : String
  defaultVal : Option String
  extra : String
deriving Repr, DecidableEq

/-- State the MySQL server reports for one database: whether the
dedicated per-database connection and its queries succeed, the base
tables (with the column rows INFORMATION_SCHEMA holds for each) and
the view names. -/
structure DbInfo where
  accessible : Bool
  baseTables : List (String × List ColumnInfo)
  views : List String
deriving Repr, DecidableEq

/-- The MySQL server as seen by a discovery call whose initial
connection succeeded: `SHOW DATABASES` output in order, with the state
of each database. -/
structure Server where
  databases : List (String × DbInfo)
deriving Repr, DecidableEq

/-- The per-database structure `get_mysql_schema` builds (the
`functions` and `procedures` sub-dicts stay empty in the source and
are omitted). -/
structure DbStructure where
  tables : List (String × List ColumnInfo)
  views : List String
deriving Repr, DecidableEq

/-- Excluded system database names (db_connection.py line 29). -/
def excluded_dbs : List String :=
  ["information_schema", "performance_schema", "mysql", "sys"]

/-- Loop body of `get_mysql_schema` (db_connection.py lines 32-82) for
one database: skip it when it is a system database, when its dedicated
connection or any of its queries fails (the `except Error: continue`
branch), or when it has no base tables; otherwise record its base
tables with their columns, and its view names. -/
def schemaEntry (p : String × DbInfo) : Option (String × DbStructure) :=
  if p.1 ∈ excluded_dbs then none
  else if p.2.accessible = false then none
  else if p.2.baseTables = [] then none
  else some (p.1, ⟨p.2.baseTables, p.2.views⟩)

/-- Embedding of `get_mysql_schema` (db_connection.py lines 19-86):
the databases are visited in `SHOW DATABASES` order and the survivors
are collected into the result mapping. -/
def get_mysql_schema (srv : Server) : List (String × DbStructure) :=
  srv.databases.filterMap schemaEntry

/-- C3: a successful discovery call returns no excluded system
database, and, provided the server holds at least one column row for
every base table (which MySQL guarantees), every table listed in the
result has at least one column descriptor. -/
theorem schema_excludes_system_dbs (srv : Server)
    (hcols : ∀ d ∈ srv.databases, ∀ t ∈ d.2.baseTables, t.2 ≠ []) :
    (∀ p ∈ get_mysql_schema srv, p.1 ∉ excluded_dbs)
    ∧ (∀ p ∈ get_mysql_schema srv, ∀ t ∈ p.2.tables, t.2 ≠ []) := by
  constructor
  · intro p hp
    obtain ⟨a, ha, hfa⟩ := List.mem_filterMap.mp hp
    by_cases hmem : a.1 ∈ excluded_dbs
    · simp [schemaEntry, hmem] at hfa
    · simp only [schemaEntry, if_neg hmem] at hfa
      split_ifs at hfa with h1 h2
      injection hfa with hv
      rw [← hv]
      exact hmem
  · intro p hp t ht
    obtain ⟨a, ha, hfa⟩ := List.mem_filterMap.mp hp
    simp only [schemaEntry] at hfa
    split_ifs at hfa with h1 h2 h3
    injection hfa with hv
    rw [← hv] at ht
    exact hcols a ha t ht

/-- Concrete server used to instantiate the discovery witnesses: the
`mysql` system database, an inaccessible database, a database holding
only a view, and an ordinary database with one table. -/
def wServer : Server :=
  ⟨[("mysql", ⟨true, [("user", [⟨"Host", "char", "NO", "PRI", none, ""⟩])], []⟩),
    ("locked_db", ⟨false, [("t", [⟨"id", "int", "NO", "PRI", none, ""⟩])], []⟩),
    ("views_only", ⟨true, [], ["v_stats"]⟩),
    ("cricbuzz", ⟨true,
      [("players", [⟨"player_id", "int", "NO", "PRI", none, "auto_increment"⟩,
                    ⟨"name", "varchar", "YES", "", none, ""⟩])], ["recent"]⟩)]⟩

/-- Witness for `schema_excludes_system_dbs` on the concrete server. -/
theorem schema_excludes_system_dbs_witness :
    (∀ p ∈ get_mysql_schema wServer, p.1 ∉ excluded_dbs)
    ∧ (∀ p ∈ get_mysql_schema wServer, ∀ t ∈ p.2.tables, t.2 ≠ []) :=
  schema_excludes_system_dbs wServer (by decide)

/-- C8: when the initial connection succeeds, a single database whose
dedicated connection or queries fail is simply omitted: the discovery
result is exactly the result for the remaining databases, so the
overall call does not fail. -/
theorem schema_skips_inaccessible_db (pre post : List (String × DbInfo))
    (name : String) (info : DbInfo) (hfail : info.accessible = false) :
    get_mysql_schema ⟨pre ++ (name, info) :: post⟩ = get_mysql_schema ⟨pre ++ post⟩ := by
  have he : schemaEntry (name, info) = none := by
    simp [schemaEntry, hfail]
  simp [get_mysql_schema, List.filterMap_append, List.filterMap_cons, he]

/-- Witness for `schema_skips_inaccessible_db`: dropping the
inaccessible database of the concrete server leaves the result
unchanged. -/
theorem schema_skips_inaccessible_db_witness :
    get_mysql_schema wServer
      = get_mysql_schema ⟨[("mysql", ⟨true, [("user", [⟨"Host", "char", "NO", "PRI", none, ""⟩])], []⟩),
          ("views_only", ⟨true, [], ["v_stats"]⟩),
          ("cricbuzz", ⟨true,
            [("players", [⟨"player_id", "int", "NO", "PRI", none, "auto_increment"⟩,
                          ⟨"name", "varchar", "YES", "", none, ""⟩])], ["recent"]⟩)]⟩ :=
  schema_skips_inaccessible_db
    [("mysql", ⟨true, [("user", [⟨"Host", "char", "NO", "PRI", none, ""⟩])], []⟩)]
    [("views_only", ⟨true, [], ["v_stats"]⟩),
     ("cricbuzz", ⟨true,
       [("players", [⟨"player_id", "int", "NO", "PRI", none, "auto_increment"⟩,
                     ⟨"name", "varchar", "YES", "", none, ""⟩])], ["recent"]⟩)]
    "locked_db" ⟨false, [("t", [⟨"id", "int", "NO", "PRI", none, ""⟩])], []⟩ rfl

/-- C9: a database with no base tables is omitted from the discovery
result even when it holds views (its view names are never reported),
and consequently every database present in the result lists at least
one table. -/
theorem schema_omits_tableless_dbs (pre post : List (String × DbInfo))
    (name : String) (info : DbInfo) (hempty : info.baseTables = [])
    (srv : Server) :
    get_mysql_schema ⟨pre ++ (name, info) :: post⟩ = get_mysql_schema ⟨pre ++ post⟩
    ∧ (∀ p ∈ get_mysql_schema srv, p.2.tables ≠ []) := by
  constructor
  · have he : schemaEntry (name, info) = none := by
      simp [schemaEntry, hempty]
    simp [get_mysql_schema, List.filterMap_append, List.filterMap_cons, he]
  · intro p hp
    obtain ⟨a, ha, hfa⟩ := List.mem_filterMap.mp hp
    simp only [schemaEntry] at hfa
    split_ifs at hfa with h1 h2 h3
    injection hfa with hv
    rw [← hv]
    simpa using h3

/-- Witness for `schema_omits_tableless_dbs`: the views-only database
of the concrete server is omitted with its view name, and the result
for the concrete server lists tables everywhere. -/
theorem schema_omits_tableless_dbs_witness :
    get_mysql_schema ⟨[("a_db", ⟨true, [("t", [⟨"id", "int", "NO", "PRI", none, ""⟩])], []⟩),
        ("views_only", ⟨true, [], ["v_stats"]⟩)]⟩
      = get_mysql_schema ⟨[("a_db", ⟨true, [("t", [⟨"id", "int", "NO", "PRI", none, ""⟩])], []⟩)]⟩
    ∧ (∀ p ∈ get_mysql_schema wServer, p.2.tables ≠ []) := by
  have h := schema_omits_tableless_dbs
    [("a_db", ⟨true, [("t", [⟨"id", "int", "NO", "PRI", none, ""⟩])], []⟩)] []
    "views_only" ⟨true, [], ["v_stats"]⟩ rfl wServer
  exact ⟨h.1, h.2⟩

/-- Verbatim sql text of template Q1 in the `queries` dict of sql_queries.py. -/
def q1_sql : String := "
                SELECT name AS full_name, playing_role, batting_style, bowling_style
                FROM players
                WHERE country = 'India';
            "

/-- Verbatim sql text of template Q2 in the `queries` dict of sql_queries.py. -/
def q2_sql : String := "
                SELECT 
                    Description,
                    \"Team 1\" AS Team1,
                    \"Team 2\" AS Team2,
                    Venue_location AS Venue,
                    Venue_city AS City,
                    date(\"Start Date\") AS Match_Date
                FROM cricket_matches_processed
                WHERE date(\"Start Date\") >= date('now', '-30 day')
                ORDER BY date(\"Start Date\") DESC;
            "

/-- Verbatim sql text of template Q3 in the `queries` dict of sql_queries.py. -/
def q3_sql : String := "
                SELECT \"Player Name\",
                    \"Total Runs\",
                    \"Batting Average\",
                    \"Centuries\"
                FROM odi_scorers
                ORDER BY \"Total Runs\" DESC
                LIMIT 10;
            "

/-- Verbatim sql text of template Q4 in the `queries` dict of sql_queries.py. -/
def q4_sql : String := "
                SELECT venue_name,
                    city,
                    country,
                    capacity
                FROM venues
                WHERE capacity > 50000
                ORDER BY capacity DESC;
            "

/-- Verbatim sql text of template Q5 in the `queries` dict of sql_queries.py. -/
def q5_sql : String := "
                SELECT 
                    TRIM(SUBSTR(Status, 1, INSTR(Status, ' won') - 1)) AS Team_Name,
                    COUNT(*) AS Total_Wins
                FROM cricket_matches
                WHERE Status LIKE '%won%'
                GROUP BY Team_Name
                ORDER BY Total_Wins DESC;
            "

/-- Verbatim sql text of template Q6 in the `queries` dict of sql_queries.py. -/
def q6_sql : String := "
                /* Expected table: players(playing_role) */
                SELECT playing_role AS role, COUNT(*) AS player_count
                FROM players
                GROUP BY playing_role
                ORDER BY player_count DESC;
            "

/-- Verbatim sql text of template Q7 in the `queries` dict of sql_queries.py. -/
def q7_sql : String := "
                /* Expected tables: batting_innings(innings_id, player_id, format, runs), formats in ('Test','ODI','T20I') */
                SELECT format,
                       MAX(runs) AS highest_score
                FROM batting_innings
                WHERE format IN ('Test','ODI','T20I')
                GROUP BY format;
            "

/-- Verbatim sql text of template Q8 in the `queries` dict of sql_queries.py. -/
def q8_sql : String := "
                /* Expected table: series(series_id, series_name, host_country, match_type, start_date, total_matches) */
                SELECT series_name, host_country, match_type, start_date, total_matches
                FROM series
                WHERE strftime('%Y', start_date) = '2024'
                ORDER BY DATE(start_date);
            "

/-- Verbatim sql text of template Q9 in the `queries` dict of sql_queries.py. -/
def q9_sql : String := "
                /* Expected tables:
                   batting_totals(player_id, format, runs_total)
                   bowling_totals(player_id, format, wickets_total)
                   players(player_id, name)
                */
                SELECT p.name AS player_name, bt.format,
                       bt.runs_total AS total_runs,
                       bw.wickets_total AS total_wickets
                FROM batting_totals bt
                JOIN bowling_totals bw ON bw.player_id = bt.player_id AND bw.format = bt.format
                JOIN players p ON p.player_id = bt.player_id
                WHERE bt.runs_total > 1000 AND bw.wickets_total > 50
                ORDER BY bt.format, bt.runs_total DESC, bw.wickets_total DESC;
            "

/-- Verbatim sql text of template Q10 in the `queries` dict of sql_queries.py. -/
def q10_sql : String := "
                /* Expected table: matches(match_id, match_title, team1, team2, winner_team, victory_margin, victory_type, venue_name, state)
                   state='Complete' or similar
                */
                SELECT match_title,
                       team1, team2,
                       winner_team,
                       victory_margin,
                       victory_type,
                       venue_name,
                       match_date
                FROM matches
                WHERE state = 'Complete'
                ORDER BY DATE(match_date) DESC, match_id DESC
                LIMIT 20;
            "

/-- Verbatim sql text of template Q11 in the `queries` dict of sql_queries.py. -/
def q11_sql : String := "
                /* Expected tables:
                   batting_totals(player_id, format, runs_total, innings, outs, average)
                   players(player_id, name)
                */
                WITH per_format AS (
                  SELECT player_id,
                         SUM(CASE WHEN format='Test' THEN runs_total ELSE 0 END) AS test_runs,
                         SUM(CASE WHEN format='ODI'  THEN runs_total ELSE 0 END) AS odi_runs,
                         SUM(CASE WHEN format='T20I' THEN runs_total ELSE 0 END) AS t20i_runs,
                         COUNT(DISTINCT format) AS fmt_count
                  FROM batting_totals
                  GROUP BY player_id
                ),
                overall AS (
                  SELECT player_id,
                         CAST(SUM(runs_total) AS FLOAT) / NULLIF(SUM(outs),0) AS overall_batting_avg
                  FROM batting_totals
                  GROUP BY player_id
                )
                SELECT p.name,
                       pf.test_runs, pf.odi_runs, pf.t20i_runs,
                       ROUND(o.overall_batting_avg, 2) AS overall_batting_avg
                FROM per_format pf
                JOIN players p ON p.player_id = pf.player_id
                LEFT JOIN overall o ON o.player_id = pf.player_id
                WHERE pf.fmt_count >= 2
                ORDER BY overall_batting_avg DESC NULLS LAST;
            "

/-- Verbatim sql text of template Q12 in the `queries` dict of sql_queries.py. -/
def q12_sql : String := "
                /* Expected tables:
                   matches(match_id, match_date, team1, team2, winner_team, venue_country)
                   teams(team_name, country)
                */
                WITH teams_norm AS (
                  SELECT team_name, country FROM teams
                ),
                labeled AS (
                  SELECT m.*,
                         CASE
                           WHEN m.venue_country = t1.country AND (m.team1 = t1.team_name) THEN m.team1
                           WHEN m.venue_country = t2.country AND (m.team2 = t2.team_name) THEN m.team2
                           ELSE NULL
                         END AS home_team
                  FROM matches m
                  LEFT JOIN teams_norm t1 ON t1.team_name = m.team1
                  LEFT JOIN teams_norm t2 ON t2.team_name = m.team2
                )
                SELECT team,
                       SUM(CASE WHEN team = home_team  AND winner_team = team THEN 1 ELSE 0 END) AS home_wins,
                       SUM(CASE WHEN team != home_team AND winner_team = team THEN 1 ELSE 0 END) AS away_wins
                FROM (
                  SELECT team1 AS team, * FROM labeled
                  UNION ALL
                  SELECT team2 AS team, * FROM labeled
                )
                GROUP BY team
                ORDER BY (home_wins + away_wins) DESC;
            "

/-- Verbatim sql text of template Q13 in the `queries` dict of sql_queries.py. -/
def q13_sql : String := "
                /* Expected tables:
                   batting_innings(innings_id, match_id, player_id, batting_position, runs, partnership_id)
                   partnerships(partnership_id, innings_id, runs, wicket_number)
                   players(player_id, name)
                */
                SELECT p1.name AS batter_1, p2.name AS batter_2,
                       bp.runs AS partnership_runs,
                       bi1.innings_id
                FROM partnerships bp
                JOIN batting_innings bi1 ON bi1.partnership_id = bp.partnership_id
                JOIN batting_innings bi2 ON bi2.partnership_id = bp.partnership_id AND ABS(bi1.batting_position - bi2.batting_position) = 1
                JOIN players p1 ON p1.player_id = bi1.player_id
                JOIN players p2 ON p2.player_id = bi2.player_id AND p2.player_id > p1.player_id
                WHERE bp.runs >= 100
                GROUP BY bp.partnership_id
                ORDER BY bp.runs DESC;
            "

/-- Verbatim sql text of template Q14 in the `queries` dict of sql_queries.py. -/
def q14_sql : String := "
                /* Expected tables:
                   bowling_innings(innings_id, match_id, player_id, overs, runs_conceded, wickets, venue_id)
                   matches(match_id, venue_id)
                   venues(venue_id, venue_name)
                */
                WITH valid_spells AS (
                  SELECT bi.*, m.venue_id
                  FROM bowling_innings bi
                  JOIN matches m ON m.match_id = bi.match_id
                  WHERE bi.overs >= 4
                ),
                agg AS (
                  SELECT player_id, venue_id,
                         COUNT(DISTINCT match_id) AS matches_played,
                         SUM(runs_conceded) * 1.0 / NULLIF(SUM(overs),0) AS economy_rate,
                         SUM(wickets) AS total_wickets
                  FROM valid_spells
                  GROUP BY player_id, venue_id
                  HAVING COUNT(DISTINCT match_id) >= 3
                )
                SELECT p.name AS bowler, v.venue_name, a.matches_played,
                       ROUND(a.economy_rate,2) AS avg_economy,
                       a.total_wickets
                FROM agg a
                JOIN players p ON p.player_id = a.player_id
                JOIN venues v ON v.venue_id = a.venue_id
                ORDER BY v.venue_name, avg_economy ASC, total_wickets DESC;
            "

/-- Verbatim sql text of template Q15 in the `queries` dict of sql_queries.py. -/
def q15_sql : String := "
                /* Expected tables:
                   matches(match_id, winner_team, victory_type, victory_margin, team1, team2)
                   batting_innings(match_id, player_id, runs, team)
                */
                WITH close_matches AS (
                  SELECT match_id, winner_team
                  FROM matches
                  WHERE (victory_type='runs' AND victory_margin < 50)
                     OR (victory_type='wickets' AND victory_margin < 5)
                ),
                per_player AS (
                  SELECT bi.player_id, bi.match_id, bi.runs, bi.team
                  FROM batting_innings bi
                  JOIN close_matches cm ON cm.match_id = bi.match_id
                )
                SELECT p.name AS player,
                       ROUND(AVG(per.runs),2) AS avg_runs_close,
                       COUNT(*) AS close_matches_played,
                       SUM(CASE WHEN cm.winner_team = per.team THEN 1 ELSE 0 END) AS team_wins_when_batted
                FROM per_player per
                JOIN close_matches cm ON cm.match_id = per.match_id
                JOIN players p ON p.player_id = per.player_id
                GROUP BY p.name
                HAVING close_matches_played >= 1
                ORDER BY avg_runs_close DESC;
            "

/-- Verbatim sql text of template Q16 in the `queries` dict of sql_queries.py. -/
def q16_sql : String := "
                /* Expected tables:
                   batting_innings(match_id, player_id, runs, balls_faced, match_date)
                */
                WITH bi AS (
                  SELECT player_id,
                         strftime('%Y', match_date) AS yr,
                         match_id,
                         runs,
                         balls_faced
                  FROM batting_innings
                  WHERE DATE(match_date) >= DATE('2020-01-01')
                ),
                per_year AS (
                  SELECT player_id, yr,
                         COUNT(DISTINCT match_id) AS matches_played,
                         AVG(runs*1.0) AS avg_runs,
                         AVG(CASE WHEN balls_faced>0 THEN (runs*100.0/balls_faced) ELSE NULL END) AS avg_sr
                  FROM bi
                  GROUP BY player_id, yr
                  HAVING COUNT(DISTINCT match_id) >= 5
                )
                SELECT p.name, yr, ROUND(avg_runs,2) AS avg_runs, ROUND(avg_sr,2) AS avg_strike_rate, matches_played
                FROM per_year
                JOIN players p ON p.player_id = per_year.player_id
                ORDER BY p.name, yr;
            "

/-- Verbatim sql text of template Q17 in the `queries` dict of sql_queries.py. -/
def q17_sql : String := "
                /* Expected tables:
                   matches(match_id, toss_winner, toss_decision, winner_team)
                */
                WITH base AS (
                  SELECT toss_decision,
                         COUNT(*) AS total,
                         SUM(CASE WHEN toss_winner = winner_team THEN 1 ELSE 0 END) AS wins_when_toss_winner_wins
                  FROM matches
                  WHERE toss_winner IS NOT NULL AND toss_decision IN ('bat','bowl')
                  GROUP BY toss_decision
                )
                SELECT toss_decision,
                       total,
                       ROUND(wins_when_toss_winner_wins * 100.0 / total, 2) AS win_pct_for_toss_winner
                FROM base
                ORDER BY toss_decision;
            "

/-- Verbatim sql text of template Q18 in the `queries` dict of sql_queries.py. -/
def q18_sql : String := "
                /* Expected tables:
                   bowling_innings(match_id, player_id, format, overs, runs_conceded, wickets)
                */
                WITH lo AS (
                  SELECT player_id,
                         COUNT(DISTINCT match_id) AS matches_bowled,
                         SUM(overs) AS overs_total,
                         SUM(runs_conceded) AS runs_total,
                         SUM(wickets) AS wickets_total
                  FROM bowling_innings
                  WHERE format IN ('ODI','T20I')
                  GROUP BY player_id
                )
                SELECT p.name AS bowler,
                       ROUND(runs_total * 1.0 / NULLIF(overs_total,0), 2) AS economy_rate,
                       wickets_total,
                       matches_bowled
                FROM lo
                JOIN players p ON p.player_id = lo.player_id
                WHERE matches_bowled >= 10
                  AND (overs_total * 1.0 / matches_bowled) >= 2.0
                ORDER BY economy_rate ASC, wickets_total DESC;
            "

/-- Verbatim sql text of template Q19 in the `queries` dict of sql_queries.py. -/
def q19_sql : String := "
                /* SQLite lacks STDDEV by default. We'll approximate via variance formula.
                   Expected tables: batting_innings(player_id, runs, balls_faced, match_date)
                */
                WITH filt AS (
                  SELECT player_id, runs*1.0 AS runs
                  FROM batting_innings
                  WHERE DATE(match_date) >= DATE('2022-01-01')
                    AND balls_faced >= 10
                ),
                agg AS (
                  SELECT player_id,
                         COUNT(*) AS n,
                         AVG(runs) AS avg_runs,
                         AVG(runs * runs) AS avg_runs_sq
                  FROM filt
                  GROUP BY player_id
                )
                SELECT p.name,
                       ROUND(agg.avg_runs,2) AS avg_runs,
                       ROUND(CASE
                         WHEN n > 1 THEN sqrt(agg.avg_runs_sq - (agg.avg_runs * agg.avg_runs))
                         ELSE NULL
                       END, 2) AS stdev_runs,
                       n AS innings_count
                FROM agg
                JOIN players p ON p.player_id = agg.player_id
                WHERE innings_count >= 1
                ORDER BY stdev_runs ASC NULLS LAST, avg_runs DESC;
            "

/-- Verbatim sql text of template Q20 in the `queries` dict of sql_queries.py. -/
def q20_sql : String := "
                /* Expected tables:
                   batting_totals(player_id, format, matches, runs_total, outs)
                */
                WITH per_format AS (
                  SELECT player_id, format, matches,
                         CAST(runs_total AS FLOAT)/NULLIF(outs,0) AS batting_avg
                  FROM batting_totals
                ),
                pivot AS (
                  SELECT player_id,
                         SUM(CASE WHEN format='Test' THEN matches ELSE 0 END) AS test_matches,
                         SUM(CASE WHEN format='ODI'  THEN matches ELSE 0 END) AS odi_matches,
                         SUM(CASE WHEN format='T20I' THEN matches ELSE 0 END) AS t20i_matches,
                         AVG(CASE WHEN format='Test' THEN batting_avg END) AS test_avg,
                         AVG(CASE WHEN format='ODI'  THEN batting_avg END) AS odi_avg,
                         AVG(CASE WHEN format='T20I' THEN batting_avg END) AS t20i_avg,
                         SUM(matches) AS total_matches
                  FROM per_format
                  GROUP BY player_id
                )
                SELECT p.name,
                       test_matches, ROUND(test_avg,2) AS test_avg,
                       odi_matches,  ROUND(odi_avg,2)  AS odi_avg,
                       t20i_matches, ROUND(t20i_avg,2) AS t20i_avg,
                       total_matches
                FROM pivot
                JOIN players p ON p.player_id = pivot.player_id
                WHERE total_matches >= 20
                ORDER BY total_matches DESC;
            "

/-- Verbatim sql text of template Q21 in the `queries` dict of sql_queries.py. -/
def q21_sql : String := "
                /* Expected tables:
                   player_format_summary(player_id, format, runs_scored, batting_average, strike_rate,
                                         wickets_taken, bowling_average, economy_rate, catches, stumpings)
                */
                WITH scored AS (
                  SELECT player_id, format,
                    ((runs_scored * 0.01) + (batting_average * 0.5) + (strike_rate * 0.3)) AS batting_points,
                    ((wickets_taken * 2.0) + ((50 - bowling_average) * 0.5) + ((6 - economy_rate) * 2.0)) AS bowling_points,
                    (catches * 0.5 + stumpings * 1.0) AS fielding_points
                  FROM player_format_summary
                ),
                total AS (
                  SELECT player_id, format,
                         batting_points + bowling_points + fielding_points AS total_points
                  FROM scored
                )
                SELECT p.name, format,
                       ROUND(total_points,2) AS total_points
                FROM total
                JOIN players p ON p.player_id = total.player_id
                ORDER BY format, total_points DESC;
            "

/-- Verbatim sql text of template Q22 in the `queries` dict of sql_queries.py. -/
def q22_sql : String := "
                /* Expected tables:
                   matches(match_id, match_date, team1, team2, winner_team, victory_type, victory_margin, toss_decision, venue_id, batting_first_team)
                   venues(venue_id, venue_name)
                */
                WITH recent AS (
                  SELECT * FROM matches
                  WHERE DATE(match_date) >= DATE('now', '-3 years')
                ),
                normalized AS (
                  SELECT CASE WHEN team1 < team2 THEN team1 ELSE team2 END AS team_a,
                         CASE WHEN team1 < team2 THEN team2 ELSE team1 END AS team_b,
                         *
                  FROM recent
                ),
                base AS (
                  SELECT team_a, team_b,
                         COUNT(*) AS total_matches,
                         SUM(CASE WHEN winner_team = team_a THEN 1 ELSE 0 END) AS wins_a,
                         SUM(CASE WHEN winner_team = team_b THEN 1 ELSE 0 END) AS wins_b,
                         AVG(CASE WHEN winner_team = team_a THEN victory_margin END) AS avg_margin_a,
                         AVG(CASE WHEN winner_team = team_b THEN victory_margin END) AS avg_margin_b,
                         SUM(CASE WHEN batting_first_team = team_a THEN 1 ELSE 0 END) AS a_bat_first_cnt,
                         SUM(CASE WHEN batting_first_team = team_b THEN 1 ELSE 0 END) AS b_bat_first_cnt
                  FROM normalized
                  GROUP BY team_a, team_b
                  HAVING COUNT(*) >= 5
                )
                SELECT team_a, team_b,
                       total_matches,
                       wins_a, wins_b,
                       ROUND(wins_a * 100.0 / total_matches,2) AS win_pct_a,
                       ROUND(wins_b * 100.0 / total_matches,2) AS win_pct_b,
                       ROUND(avg_margin_a,2) AS avg_victory_margin_when_a_wins,
                       ROUND(avg_margin_b,2) AS avg_victory_margin_when_b_wins
                FROM base
                ORDER BY total_matches DESC, ABS(win_pct_a - win_pct_b) DESC;
            "

/-- Verbatim sql text of template Q23 in the `queries` dict of sql_queries.py. -/
def q23_sql : String := "
                /* Expected tables:
                   batting_innings(player_id, match_date, runs, balls_faced)
                */
                WITH last10 AS (
                  SELECT player_id, match_date, runs, balls_faced,
                         ROW_NUMBER() OVER (PARTITION BY player_id ORDER BY DATE(match_date) DESC) AS rn
                  FROM batting_innings
                ),
                scoped AS (
                  SELECT * FROM last10 WHERE rn <= 10
                ),
                last5 AS (
                  SELECT player_id, AVG(runs*1.0) AS avg_last5
                  FROM scoped WHERE rn <= 5 GROUP BY player_id
                ),
                last10agg AS (
                  SELECT player_id,
                         AVG(runs*1.0) AS avg_last10,
                         AVG(CASE WHEN balls_faced>0 THEN (runs*100.0/balls_faced) END) AS avg_sr_last10,
                         SUM(CASE WHEN runs >= 50 THEN 1 ELSE 0 END) AS fifties_last10,
                         COUNT(*) AS n,
                         AVG(runs*1.0) AS mean_r,
                         AVG((runs*1.0)*(runs*1.0)) AS mean_r2
                  FROM scoped
                  GROUP BY player_id
                ),
                merged AS (
                  SELECT l10.player_id,
                         l5.avg_last5,
                         l10.avg_last10,
                         l10.avg_sr_last10,
                         l10.fifties_last10,
                         l10.n,
                         sqrt(l10.mean_r2 - (l10.mean_r*l10.mean_r)) AS stdev_r
                  FROM last10agg l10
                  LEFT JOIN last5 l5 ON l5.player_id = l10.player_id
                )
                SELECT p.name,
                       ROUND(avg_last5,2) AS avg_last5,
                       ROUND(avg_last10,2) AS avg_last10,
                       ROUND(avg_sr_last10,2) AS sr_last10,
                       fifties_last10,
                       ROUND(stdev_r,2) AS consistency_stdev,
                       CASE
                         WHEN avg_last5 >= 50 AND stdev_r <= 15 THEN 'Excellent Form'
                         WHEN avg_last5 >= 35 THEN 'Good Form'
                         WHEN avg_last5 >= 20 THEN 'Average Form'
                         ELSE 'Poor Form'
                       END AS form_bucket
                FROM merged
                JOIN players p ON p.player_id = merged.player_id
                ORDER BY form_bucket, avg_last5 DESC;
            "

/-- Verbatim sql text of template Q24 in the `queries` dict of sql_queries.py. -/
def q24_sql : String := "
                /* Expected tables:
                   partnerships(partnership_id, innings_id, runs)
                   partnership_players(partnership_id, player_id, batting_position)
                   players(player_id, name)
                */
                WITH pairs AS (
                  SELECT pp1.player_id AS p1,
                         pp2.player_id AS p2,
                         pr.runs
                  FROM partnership_players pp1
                  JOIN partnership_players pp2
                    ON pp1.partnership_id = pp2.partnership_id
                   AND ABS(pp1.batting_position - pp2.batting_position) = 1
                   AND pp1.player_id < pp2.player_id
                  JOIN partnerships pr ON pr.partnership_id = pp1.partnership_id
                ),
                stats AS (
                  SELECT p1, p2,
                         COUNT(*) AS partnerships_played,
                         AVG(runs*1.0) AS avg_runs,
                         SUM(CASE WHEN runs >= 50 THEN 1 ELSE 0 END) AS partnerships_50_plus,
                         MAX(runs) AS highest
                  FROM pairs
                  GROUP BY p1, p2
                  HAVING COUNT(*) >= 5
                )
                SELECT pA.name AS player_a, pB.name AS player_b,
                       ROUND(avg_runs,2) AS avg_partnership,
                       partnerships_50_plus,
                       highest,
                       ROUND(partnerships_50_plus * 100.0 / partnerships_played,2) AS success_rate_pct
                FROM stats
                JOIN players pA ON pA.player_id = stats.p1
                JOIN players pB ON pB.player_id = stats.p2
                ORDER BY success_rate_pct DESC, avg_partnership DESC, highest DESC;
            "

/-- Verbatim sql text of template Q25 in the `queries` dict of sql_queries.py. -/
def q25_sql : String := "
                /* Expected tables:
                   batting_innings(player_id, match_date, runs, balls_faced, match_id)
                */
                WITH base AS (
                  SELECT player_id,
                         strftime('%Y', match_date) AS y,
                         ((CAST(strftime('%m', match_date) AS INT) - 1) / 3) + 1 AS q,
                         match_id, runs, balls_faced
                  FROM batting_innings
                ),
                per_q AS (
                  SELECT player_id, y || 'Q' || q AS yrq,
                         COUNT(DISTINCT match_id) AS matches_q,
                         AVG(runs*1.0) AS avg_runs_q,
                         AVG(CASE WHEN balls_faced>0 THEN (runs*100.0/balls_faced) END) AS avg_sr_q
                  FROM base
                  GROUP BY player_id, yrq
                  HAVING COUNT(DISTINCT match_id) >= 3
                ),
                ranked AS (
                  SELECT *,
                         ROW_NUMBER() OVER (PARTITION BY player_id ORDER BY yrq) AS rn
                  FROM per_q
                ),
                delta AS (
                  SELECT p1.player_id, p1.yrq,
                         p1.avg_runs_q,
                         p1.avg_sr_q,
                         (p1.avg_runs_q - p0.avg_runs_q) AS d_runs,
                         (p1.avg_sr_q - p0.avg_sr_q) AS d_sr
                  FROM ranked p1
                  LEFT JOIN ranked p0
                    ON p0.player_id = p1.player_id AND p0.rn = p1.rn - 1
                ),
                coverage AS (
                  SELECT player_id, COUNT(*) AS qtrs FROM per_q GROUP BY player_id
                )
                SELECT p.name,
                       yrq,
                       ROUND(avg_runs_q,2) AS avg_runs,
                       ROUND(avg_sr_q,2) AS avg_sr,
                       ROUND(d_runs,2) AS delta_runs_vs_prev_qtr,
                       ROUND(d_sr,2) AS delta_sr_vs_prev_qtr,
                       CASE
                         WHEN d_runs IS NULL THEN '—'
                         WHEN d_runs > 0 AND d_sr > 0 THEN 'Improving'
                         WHEN d_runs < 0 AND d_sr < 0 THEN 'Declining'
                         ELSE 'Stable'
                       END AS trend_this_qtr,
                       CASE
                         WHEN c.qtrs >= 6 THEN
                           CASE
                             WHEN AVG(CASE WHEN d_runs > 0 AND d_sr > 0 THEN 1 ELSE 0 END) OVER (PARTITION BY d.player_id) >= 0.6
                               THEN 'Career Ascending'
                             WHEN AVG(CASE WHEN d_runs < 0 AND d_sr < 0 THEN 1 ELSE 0 END) OVER (PARTITION BY d.player_id) >= 0.6
                               THEN 'Career Declining'
                             ELSE 'Career Stable'
                           END
                         ELSE 'Insufficient span'
                       END AS career_phase_estimate
                FROM delta d
                JOIN players p ON p.player_id = d.player_id
                JOIN coverage c ON c.player_id = d.player_id
                ORDER BY p.name, yrq;
            "

/-- The analytics query catalog: the 25 `(label, sql_text)` pairs of the
`queries` dict (sql_queries.py lines 38-666), in catalog order. -/
def queries : List (String × String) := [
  ("Q1. Players from India: full name, role, batting & bowling styles", q1_sql),
  ("Q2. Matches in the last 30 days (desc)", q2_sql),
  ("Q3. Top 10 ODI run scorers (name, total runs, avg, 100s)", q3_sql),
  ("Q4. Venues with capacity > 50,000 (largest first)", q4_sql),
  ("Q5. Matches won by each team (most wins first)", q5_sql),
  ("Q6. Player counts by playing role", q6_sql),
  ("Q7. Highest individual batting score per format", q7_sql),
  ("Q8. Series that started in 2024", q8_sql),
  ("Q9. All-rounders with >1000 runs AND >50 wickets (by format)", q9_sql),
  ("Q10. Last 20 completed matches (desc)", q10_sql),
  ("Q11. Players with >=2 formats: runs by format + overall batting avg", q11_sql),
  ("Q12. Team wins at home vs away", q12_sql),
  ("Q13. Partnerships (adjacent batters) >= 100 runs in an innings", q13_sql),
  ("Q14. Bowling at venues (>=3 matches, >=4 overs each match)", q14_sql),
  ("Q15. Players in close matches (<50 runs OR <5 wickets)", q15_sql),
  ("Q16. Since 2020: yearly avg runs & strike rate (>=5 matches/year)", q16_sql),
  ("Q17. Does winning the toss help? Win% by toss decision", q17_sql),
  ("Q18. Most economical bowlers (ODI & T20, min 10 matches, avg >=2 overs)", q18_sql),
  ("Q19. Consistency: avg runs & stdev (since 2022, >=10 balls/inn)", q19_sql),
  ("Q20. Matches & batting average by format (players with >=20 total matches)", q20_sql),
  ("Q21. Composite performance score & ranking by format", q21_sql),
  ("Q22. Head-to-head analysis (last 3 years, pairs with >=5 matches)", q22_sql),
  ("Q23. Recent form (last 10 innings): avgs, SR trend, 50+ counts, consistency", q23_sql),
  ("Q24. Best batting partnerships (adjacent, >=5 partnerships)", q24_sql),
  ("Q25. Time-series: quarterly batting trend & career phase (>=6 quarters)", q25_sql)]

/-- Skips the rest of a `/* ... */` SQL block comment: drops characters
until just past the closing marker. -/
def dropToCommentEnd : List Char → List Char
  | [] => []
  | '*' :: '/' :: rest => rest
  | _ :: rest => dropToCommentEnd rest

/-- Removes leading whitespace and leading `/* ... */` block comments
from a character list, with fuel for termination. -/
def stripTrivia : Nat → List Char → List Char
  | 0, s => s
  | _ + 1, [] => []
  | n + 1, c :: rest =>
    if c.isWhitespace then stripTrivia n rest
    else
      match c, rest with
      | '/', '*' :: r2 => stripTrivia n (dropToCommentEnd r2)
      | _, _ => c :: rest

/-- Leading SQL trivia (whitespace and block comments) stripped from a
query text; the fuel 4096 exceeds the length of every catalog text, so
the stripping always runs to completion. -/
def sqlBody (sql : String) : List Char :=
  stripTrivia 4096 sql.data

/-- Whether the text begins, after leading trivia, with the keyword
`SELECT` or `WITH`. -/
def readOnlyStart (sql : String) : Bool :=
  "SELECT".data.isPrefixOf (sqlBody sql) || "WITH".data.isPrefixOf (sqlBody sql)

/-- Whether the text holds a bound runtime parameter placeholder: a
`%s` format marker or a `?` positional marker. -/
def hasPlaceholder : List Char → Bool
  | [] => false
  | '?' :: _ => true
  | '%' :: 's' :: _ => true
  | '%' :: rest => hasPlaceholder rest
  | _ :: rest => hasPlaceholder rest

/-- Naive substring search over character lists. -/
def containsSub (pat : List Char) : List Char → Bool
  | [] => decide (pat = [])
  | c :: rest => pat.isPrefixOf (c :: rest) || containsSub pat rest

set_option maxRecDepth 8000 in
/-- C7 counterexample: the sql text of template Q6 does not start with
`SELECT` nor `WITH` — it starts with a `/* ... */` comment — so the
claim read over the raw text fails on the catalog; the label is listed
in `queries` with this text. -/
theorem catalog_literal_prefix_counterexample :
    ("SELECT".data.isPrefixOf (pyStrip q6_sql).data = false
      ∧ "WITH".data.isPrefixOf (pyStrip q6_sql).data = false)
    ∧ ("Q6. Player counts by playing role", q6_sql) ∈ queries := by
  constructor
  · constructor <;> decide
  · decide

set_option maxRecDepth 8000 in
/-- C7 amended: after stripping leading whitespace and block comments,
every template text in the catalog starts with `SELECT` or with
`WITH`, and no template text holds a bound runtime parameter
placeholder (`%s` or `?`). -/
theorem catalog_read_only_templates :
    queries.all (fun q => readOnlyStart q.2 && !hasPlaceholder q.2.data) = true := by
  decide

/-- SQL `AVG` over one group of rational values, as both consistency
templates use it (`AVG(runs)` in Q19 lines 385-392, `AVG(runs*1.0)` in
Q23 lines 521-531): the sum divided by the group size. -/
def sqlAvg (l : List ℚ) : ℚ := l.sum / l.length

/-- The mean-of-squares aggregate of the consistency templates:
`AVG(runs * runs)` in Q19, `AVG((runs*1.0)*(runs*1.0))` in Q23. -/
def avg_runs_sq (l : List ℚ) : ℚ := sqlAvg (l.map (fun x => x * x))

/-- The argument both templates pass to `sqrt`:
`avg_runs_sq - (avg_runs * avg_runs)` in Q19 and
`mean_r2 - (mean_r*mean_r)` in Q23 — the population variance. -/
def stdevSqrtArg (l : List ℚ) : ℚ := avg_runs_sq l - sqlAvg l * sqlAvg l

/-- The square root of `v` rounds half-up to `c` at two decimal places
(read for `0 ≤ c - 1/200`): equivalent to `c - 0.005 ≤ sqrt v < c + 0.005`
squared into rational arithmetic. -/
def sqrtRoundsTo (v c : ℚ) : Prop := (c - 1/200)^2 ≤ v ∧ v < (c + 1/200)^2

/-- Sum of squared deviations expanded: the algebraic identity behind
the population-variance formula. -/
lemma sum_sq_dev (l : List ℚ) (m : ℚ) :
    (l.map (fun x => (x - m)^2)).sum
      = (l.map (fun x => x * x)).sum - 2 * m * l.sum + l.length * m^2 := by
  induction l with
  | nil => simp
  | cons a t ih =>
    simp only [List.map_cons, List.sum_cons, List.length_cons, ih]
    push_cast
    ring

/-- Sum of a list whose members all equal `c`. -/
lemma sum_const_list (l : List ℚ) (c : ℚ) (h : ∀ x ∈ l, x = c) :
    l.sum = l.length * c := by
  induction l with
  | nil => simp
  | cons a t ih =>
    have ha : a = c := h a (List.mem_cons_self a t)
    have ht : ∀ x ∈ t, x = c := fun x hx => h x (List.mem_cons_of_mem a hx)
    rw [List.sum_cons, ha, ih ht]
    simp only [List.length_cons]
    push_cast
    ring

/-- The sqrt argument equals the mean squared deviation. -/
lemma stdevSqrtArg_eq_dev (l : List ℚ) (h : l ≠ []) :
    stdevSqrtArg l = (l.map (fun x => (x - sqlAvg l)^2)).sum / l.length := by
  have hn : ((l.length : ℚ)) ≠ 0 := by
    have := List.length_pos.mpr h
    positivity
  rw [sum_sq_dev]
  unfold stdevSqrtArg avg_runs_sq sqlAvg
  rw [List.length_map]
  field_simp
  ring

set_option maxRecDepth 8000 in
/-- C6 amended: in both consistency templates the standard deviation
is computed as the square root of `E[x^2] - E[x]^2` (population
variance) applied directly to that difference; in exact arithmetic the
sqrt argument is never negative, it is exactly zero when all values of
the group are identical (so the result is zero, with no domain error),
and for runs 10, 20, 30 the mean is 20, the mean of squares 1400/3,
the variance 200/3 and the standard deviation rounds to 8.16. -/
theorem stdev_population_variance (l : List ℚ) (h : l ≠ []) :
    0 ≤ stdevSqrtArg l
    ∧ (∀ c, (∀ x ∈ l, x = c) → stdevSqrtArg l = 0)
    ∧ (sqlAvg [10, 20, 30] = 20 ∧ avg_runs_sq [10, 20, 30] = 1400/3
        ∧ stdevSqrtArg [10, 20, 30] = 200/3
        ∧ sqrtRoundsTo (stdevSqrtArg [10, 20, 30]) (816/100))
    ∧ containsSub "sqrt(agg.avg_runs_sq - (agg.avg_runs * agg.avg_runs))".data
        q19_sql.data = true
    ∧ containsSub "sqrt(l10.mean_r2 - (l10.mean_r*l10.mean_r))".data
        q23_sql.data = true := by
  have hn : (0 : ℚ) < (l.length : ℚ) := by
    have := List.length_pos.mpr h
    exact_mod_cast this
  have hconc : sqlAvg [10, 20, 30] = 20 ∧ avg_runs_sq [10, 20, 30] = 1400/3
      ∧ stdevSqrtArg [10, 20, 30] = (200/3 : ℚ) := by
    norm_num [sqlAvg, avg_runs_sq, stdevSqrtArg]
  refine ⟨?_, ?_, ⟨hconc.1, hconc.2.1, hconc.2.2, ?_⟩, by decide, by decide⟩
  · rw [stdevSqrtArg_eq_dev l h]
    apply div_nonneg _ (le_of_lt hn)
    apply List.sum_nonneg
    intro x hx
    obtain ⟨y, hy, rfl⟩ := List.mem_map.mp hx
    exact sq_nonneg _
  · intro c hc
    have hs : l.sum = l.length * c := sum_const_list l c hc
    have hs2 : (l.map (fun x => x * x)).sum = l.length * (c * c) := by
      rw [sum_const_list (l.map (fun x => x * x)) (c * c) ?_, List.length_map]
      intro x hx
      obtain ⟨y, hy, rfl⟩ := List.mem_map.mp hx
      rw [hc y hy]
    unfold stdevSqrtArg avg_runs_sq sqlAvg
    rw [List.length_map, hs, hs2]
    field_simp
  · rw [hconc.2.2]
    norm_num [sqrtRoundsTo]

/-- Witness for `stdev_population_variance` at the concrete group
10, 20, 30. -/
theorem stdev_population_variance_witness :
    0 ≤ stdevSqrtArg [10, 20, 30]
    ∧ sqrtRoundsTo (stdevSqrtArg [10, 20, 30]) (816/100) :=
  have h := stdev_population_variance [10, 20, 30] (by simp)
  ⟨h.1, h.2.2.1.2.2.2⟩

set_option maxRecDepth 8000 in
/-- C6 counterexample: neither consistency template clamps the sqrt
argument — each applies `sqrt` directly to the raw variance expression
and no `max(0, ...)` clamp occurs in either text (in SQLite, `sqrt` of
a negative argument yields NULL, not zero). -/
theorem stdev_no_clamp_counterexample :
    containsSub "sqrt(agg.avg_runs_sq - (agg.avg_runs * agg.avg_runs))".data
      q19_sql.data = true
    ∧ containsSub "sqrt(l10.mean_r2 - (l10.mean_r*l10.mean_r))".data
      q23_sql.data = true
    ∧ containsSub "max(0".data q19_sql.data = false
    ∧ containsSub "MAX(0".data q19_sql.data = false
    ∧ containsSub "max(0".data q23_sql.data = false
    ∧ containsSub "MAX(0".data q23_sql.data = false := by
  decide
